import Mathlib

/-!
Verification development for the reprozip pack subcommand
(src/reprozip/pack.py) and the reprounzip containerexec unpacker
(src/reprounzip-containerexec/reprounzip/unpackers/containerexec/default.py).

The Python code is shallowly embedded: the filesystem is a snapshot record
of content, symlink status and link targets; the pack operation is a pure
function of that snapshot; the unbounded Python while-loop that follows
symlink chains is embedded with fuel, where a result of none for every
fuel value models divergence of the loop.
-/

namespace Reprozip

/-- Python posixpath.dirname: everything up to the last slash, with
trailing slashes stripped unless the head is all slashes. -/
def dirname (p : String) : String :=
  let cs := p.toList
  let head := if cs.contains '/' then
    (cs.reverse.dropWhile (fun c => c ≠ '/')).reverse
  else []
  let head2 := if head ≠ [] ∧ ¬ (head.all (fun c => c = '/')) then
    (head.reverse.dropWhile (fun c => c = '/')).reverse
  else head
  String.mk head2

/-- Python s.startswith of a slash, computed structurally. -/
def startsWithSlash (s : String) : Bool :=
  match s.toList with
  | [] => false
  | c :: _ => c = '/'

/-- Python s.endswith of a slash, computed structurally. -/
def endsWithSlash (s : String) : Bool :=
  match s.toList.getLast? with
  | none => false
  | some c => c = '/'

/-- Python posixpath.join restricted to two components, as used in
pack.py line 60: an absolute second component replaces the first. -/
def joinPath (a b : String) : String :=
  if startsWithSlash b then b
  else if a = "" ∨ endsWithSlash a then a ++ b
  else a ++ "/" ++ b

/-- Snapshot of the filesystem as seen by pack: file content (none when
the path does not exist), symlink status, and symlink target text. -/
structure FS where
  content : String → Option String
  isLink : String → Bool
  readLink : String → String

/-- A path is present when lstat succeeds, i.e. it has content in the
snapshot. tarfile.add requires this. -/
def FS.present (fs : FS) (p : String) : Bool :=
  (fs.content p).isSome

/-- Create or overwrite a file in the snapshot (tarfile.open(target, w:gz)
creates the target immediately). -/
def FS.createFile (fs : FS) (p : String) (data : String) : FS :=
  { fs with content := fun q => if q = p then some data else fs.content q }

/-- One file record from the configuration; pack only reads its path. -/
structure FileEntry where
  path : String
  deriving DecidableEq, Repr

/-- One package from the configuration: name, the packfiles flag, and the
owned file entries, in order. -/
structure Package where
  name : String
  packfiles : Bool
  files : List FileEntry
  deriving DecidableEq, Repr

/-- The part of the parsed configuration that the payload pass of pack
reads: ordered packages and the standalone (other) files.
load_config itself lives outside the packed sources, so its result is
taken as input here. -/
structure PackConfig where
  packages : List Package
  otherFiles : List FileEntry
  deriving DecidableEq, Repr

/-- Error outcomes of pack: target already present, configuration file
missing, or a failure while adding an archive member. -/
inductive PackError where
  | archiveExists
  | configMissing
  | archiveWrite
  deriving DecidableEq, Repr

/-- One symlink hop, pack.py line 60: join the directory part of the
current path with the link target. -/
def hop (fs : FS) (t : String) : String :=
  joinPath (dirname t) (fs.readLink t)

/-- Iterated symlink hops. -/
def iterHop (fs : FS) : Nat → String → String
  | 0, t => t
  | n + 1, t => iterHop fs n (hop fs t)

/-- The intermediate link targets the while-loop of pack.py lines 59-63
adds, cut off after the given number of hops. -/
def chainTargets (fs : FS) : Nat → String → List String
  | 0, _ => []
  | n + 1, t =>
    if fs.isLink t then hop fs t :: chainTargets fs n (hop fs t) else []

/-- Fuel-bounded embedding of the while-loop of pack.py lines 59-63:
while the current path is a symlink, hop and add the hop target.
Returns the member paths added and an error if an added path is absent;
none models the loop still running when the fuel runs out, so a result
of none at every fuel value is divergence of the source loop. -/
def packLinkChain (fs : FS) : Nat → String → Option (List String × Option PackError)
  | 0, t => if fs.isLink t then none else some ([], none)
  | n + 1, t =>
    if fs.isLink t then
      if fs.present (hop fs t) then
        match packLinkChain fs n (hop fs t) with
        | none => none
        | some (ms, r) => some (hop fs t :: ms, r)
      else some ([], some PackError.archiveWrite)
    else some ([], none)

/-- pack.py lines 55-63: add the file path itself, then follow its
symlink chain. -/
def packFileEntry (fs : FS) (fuel : Nat) (f : FileEntry) :
    Option (List String × Option PackError) :=
  if fs.present f.path then
    match packLinkChain fs fuel f.path with
    | none => none
    | some (ms, r) => some (f.path :: ms, r)
  else some ([], some PackError.archiveWrite)

/-- Sequence a member-producing step over a list, stopping at the first
error and propagating divergence. -/
def packSeq {α : Type} (g : α → Option (List String × Option PackError)) :
    List α → Option (List String × Option PackError)
  | [] => some ([], none)
  | x :: xs =>
    match g x with
    | none => none
    | some (ms, some e) => some (ms, some e)
    | some (ms, none) =>
      match packSeq g xs with
      | none => none
      | some (rest, r) => some (ms ++ rest, r)

/-- pack.py lines 52-65: a package with packfiles adds each owned file
and its symlink chain; a package without packfiles adds nothing. -/
def packPackage (fs : FS) (fuel : Nat) (pkg : Package) :
    Option (List String × Option PackError) :=
  if pkg.packfiles then packSeq (packFileEntry fs fuel) pkg.files
  else some ([], none)

/-- pack.py lines 69-71: a standalone (other) file is added by path,
with no symlink-chain loop. -/
def packOtherFile (fs : FS) (f : FileEntry) :
    Option (List String × Option PackError) :=
  if fs.present f.path then some ([f.path], none)
  else some ([], some PackError.archiveWrite)

/-- The payload pass of pack: all packages in configuration order, then
all other files in configuration order. -/
def packPayload (fs : FS) (cfg : PackConfig) (fuel : Nat) :
    Option (List String × Option PackError) :=
  match packSeq (packPackage fs fuel) cfg.packages with
  | none => none
  | some (ms, some e) => some (ms, some e)
  | some (ms, none) =>
    match packSeq (packOtherFile fs) cfg.otherFiles with
    | none => none
    | some (ms2, r) => some (ms ++ ms2, r)

def versionMember : String := "METADATA/version"

def configMember : String := "METADATA/config.yml"

def traceMember : String := "METADATA/trace.sqlite3"

/-- The metadata members pack writes first: the version marker, the
configuration, and the trace blob exactly when trace.sqlite3 is present
in the source directory (pack.py lines 32-49). -/
def metadataMembers (fs : FS) (directory : String) : List String :=
  [versionMember, configMember] ++
    (if fs.present (joinPath directory "trace.sqlite3") then [traceMember]
     else [])

/-- Archive bytes are abstracted as the member list in written order. -/
def archiveBytes (members : List String) : String :=
  String.intercalate "\n" members

/-- Outcome of a pack invocation: the member names written in order on
success, or the error, together with the filesystem afterwards. -/
inductive PackOutcome where
  | success (members : List String) (finalFS : FS)
  | failure (e : PackError) (finalFS : FS)

def PackOutcome.errorOf : PackOutcome → Option PackError
  | .success _ _ => none
  | .failure e _ => some e

def PackOutcome.membersOf : PackOutcome → Option (List String)
  | .success ms _ => some ms
  | .failure _ _ => none

def PackOutcome.finalFS : PackOutcome → FS
  | .success _ f => f
  | .failure _ f => f

/-- Embedding of pack (pack.py lines 11-73). Checks the target, checks
the configuration file, then opens the tar archive directly at the
target path and writes the metadata members followed by the payload.
A result of none models divergence of the symlink-following loop. -/
def pack (fs : FS) (cfg : PackConfig) (target directory : String)
    (fuel : Nat) : Option PackOutcome :=
  if fs.present target then some (.failure .archiveExists fs)
  else if fs.present (joinPath directory "config.yml") = false then
    some (.failure .configMissing fs)
  else
    match packPayload fs cfg fuel with
    | none => none
    | some (ms, some e) =>
      some (.failure e
        (fs.createFile target (archiveBytes (metadataMembers fs directory ++ ms))))
    | some (ms, none) =>
      some (.success (metadataMembers fs directory ++ ms)
        (fs.createFile target (archiveBytes (metadataMembers fs directory ++ ms))))

/-!
Embedding of containerexec_run (default.py lines 41-121) and the upload
and download operations. The helpers shell_escape, X11Handler.fix_env and
fixup_environment live outside the packed sources, so they are taken as
function parameters; the command-building loop, the uid and gid
selection, the argv substitution and the return value are embedded from
the source.
-/

/-- One recorded run, as read by containerexec_run from the loaded
configuration. The environment mapping is kept in its recorded order. -/
structure Run where
  workingdir : String
  environ : List (String × String)
  uid : Nat
  gid : Nat
  binary : String
  argv : List String
  deriving DecidableEq, Repr

/-- Placeholder run used to totalize list indexing; theorems about the
loop carry in-range hypotheses or concrete indices. -/
def defaultRun : Run :=
  { workingdir := "", environ := [], uid := 0, gid := 0, binary := "",
    argv := [] }

/-- default.py lines 74-75: the environment assignments as written into
the command string, one escaped k=v pair per mapping entry, joined by
spaces in mapping order. -/
def envAssigns (esc : String → String)
    (environ : List (String × String)) : String :=
  String.intercalate " "
    (environ.map (fun kv => esc kv.fst ++ "=" ++ esc kv.snd))

/-- default.py lines 80-83: without a cmdline override the argument
vector is the recorded binary followed by the recorded argv minus its
first element; with an override, the override vector verbatim. -/
def selectArgv (cmdline : Option (List String)) (run : Run) :
    List String :=
  match cmdline with
  | none => run.binary :: run.argv.drop 1
  | some c => c

/-- default.py line 84: the escaped argument vector joined by spaces. -/
def argvString (esc : String → String) (argvv : List String) : String :=
  String.intercalate " " (argvv.map esc)

/-- The environment handed to the child, default.py lines 72-73: the
X11 fix-ups applied to the recorded mapping first, the caller-supplied
environment options applied second. -/
def childEnviron {OptT : Type}
    (x11fix : List (String × String) → List (String × String))
    (fixupEnvironment : List (String × String) → OptT → List (String × String))
    (opts : OptT) (run : Run) : List (String × String) :=
  fixupEnvironment (x11fix run.environ) opts

/-- default.py lines 70-85: the command string built for one run, by
the same sequence of concatenations as the source. -/
def buildRunCmd {OptT : Type} (esc : String → String)
    (x11fix : List (String × String) → List (String × String))
    (fixupEnvironment : List (String × String) → OptT → List (String × String))
    (opts : OptT) (cmdline : Option (List String)) (run : Run) : String :=
  let cmd0 := "cd " ++ esc run.workingdir ++ " && "
  let cmd1 := cmd0 ++ "/usr/bin/env -i "
  let environ := x11fix run.environ
  let environ2 := fixupEnvironment environ opts
  let cmd2 := cmd1 ++ envAssigns esc environ2
  let cmd3 := cmd2 ++ " "
  let cmd4 := cmd3 ++ argvString esc (selectArgv cmdline run)
  "/bin/sh -c " ++ esc cmd4

/-- State of the loop of default.py lines 63-86: the command strings so
far and the last-assigned uid and gid (initialized to 0 at lines 64-65). -/
structure LoopState where
  cmds : List String
  uid : Nat
  gid : Nat
  deriving DecidableEq, Repr

/-- One iteration of the loop: append the command for the selected run
number and overwrite uid and gid with the record of that run. -/
def runLoopStep {OptT : Type} (esc : String → String)
    (x11fix : List (String × String) → List (String × String))
    (fixupEnvironment : List (String × String) → OptT → List (String × String))
    (opts : OptT) (cmdline : Option (List String)) (runs : List Run)
    (st : LoopState) (runNumber : Nat) : LoopState :=
  { cmds := st.cmds ++
      [buildRunCmd esc x11fix fixupEnvironment opts cmdline
        (runs.getD runNumber defaultRun)],
    uid := (runs.getD runNumber defaultRun).uid,
    gid := (runs.getD runNumber defaultRun).gid }

/-- The whole loop of default.py lines 63-86 over the selected run
numbers, in selection order. -/
def runLoop {OptT : Type} (esc : String → String)
    (x11fix : List (String × String) → List (String × String))
    (fixupEnvironment : List (String × String) → OptT → List (String × String))
    (opts : OptT) (cmdline : Option (List String)) (runs : List Run)
    (selected : List Nat) : LoopState :=
  selected.foldl
    (runLoopStep esc x11fix fixupEnvironment opts cmdline runs)
    { cmds := [], uid := 0, gid := 0 }

/-- The isolation executor record, default.py line 97: it is constructed
once for the combined invocation, with the uid and gid left by the loop. -/
structure ContainerExecutor where
  uid : Nat
  gid : Nat
  deriving DecidableEq, Repr

/-- default.py line 97: the executor as built after the loop. -/
def containerExecutorOf {OptT : Type} (esc : String → String)
    (x11fix : List (String × String) → List (String × String))
    (fixupEnvironment : List (String × String) → OptT → List (String × String))
    (opts : OptT) (cmdline : Option (List String)) (runs : List Run)
    (selected : List Nat) : ContainerExecutor :=
  { uid := (runLoop esc x11fix fixupEnvironment opts cmdline runs selected).uid,
    gid := (runLoop esc x11fix fixupEnvironment opts cmdline runs selected).gid }

/-- Modelled from the spec: the benchexec RunResult consumed at
default.py lines 110-121 carries either a normal exit code or a
terminating-signal number; the combining of the two into the reported
code is embedded from line 121. -/
structure RunResult where
  value : Option Int
  signal : Option Int
  deriving DecidableEq, Repr

/-- Python disjunction a-or-b on optional integers: None and 0 are falsy. -/
def pyOrOpt (a b : Option Int) : Option Int :=
  match a with
  | none => b
  | some n => if n = 0 then b else some n

/-- default.py line 121: the expression result.signal or result.value
returned there. This line is only reached when the status write at
line 110 did not raise; see containerexecReport. -/
def containerexecReturnCode (r : RunResult) : Option Int :=
  pyOrOpt r.signal r.value

/-- How the tail of containerexec_run ends: either the value given back
at line 121, or an uncaught TypeError escaping the try block. -/
inductive ReportOutcome where
  | returns (code : Option Int)
  | typeError
  deriving DecidableEq, Repr

/-- default.py lines 110-121. The status write at line 110 is
stderr.write of the percent-format of result.value followed by
an or with result.signal; percent binds tighter than or, so the format
is applied to result.value alone, and when result.value is None (the
signal-kill case) it raises TypeError. TypeError is not among the
exceptions caught at line 117 (BenchExecException, OSError), so
containerexec_run crashes and never reaches the return at line 121;
with a present exit value the format succeeds and line 121 returns
result.signal or result.value. -/
def containerexecReport (r : RunResult) : ReportOutcome :=
  match r.value with
  | none => ReportOutcome.typeError
  | some _ => ReportOutcome.returns (containerexecReturnCode r)

/-- default.py lines 33-37: containerexec_upload only logs and returns;
the world state (isolated root, sidecar, local files) is a type
parameter and is returned unchanged next to the emitted log lines. -/
def containerexec_upload {World : Type} (state : World)
    (_args : List String) : World × List String :=
  (state, ["containerexec_upload"])

/-- default.py lines 124-128: containerexec_download only logs and
returns, leaving the world state unchanged. -/
def containerexec_download {World : Type} (state : World)
    (_args : List String) : World × List String :=
  (state, ["containerexec_download"])

/-!
Concrete fixtures used to settle the claims on explicit inputs.
-/

/-- Filesystem with a cyclic symlink chain: /a points to /b and /b back
to /a; the configuration file is present and the pack target absent. -/
def cycFS : FS :=
  { content := fun p =>
      if p == "/d/config.yml" || p == "/a" || p == "/b" then some p
      else none,
    isLink := fun p => p == "/a" || p == "/b",
    readLink := fun p => if p == "/a" then "/b" else "/a" }

/-- Configuration with one bundled package whose single file is the
cyclic symlink /a. -/
def cycCfg : PackConfig :=
  { packages :=
      [{ name := "p", packfiles := true, files := [{ path := "/a" }] }],
    otherFiles := [] }

/-- Divergence of pack on the cyclic chain: at every fuel value the
embedded symlink-following loop is still running, i.e. the source
while-loop never terminates, and in particular never raises any error. -/
def cyclicPackDiverges : Prop :=
  ∀ fuel : Nat, pack cycFS cycCfg "/t.rpz" "/d" fuel = none

/-- Filesystem where every path is present and /a is a single-hop
symlink to the regular file /b. -/
def fs2 : FS :=
  { content := fun _ => some "x",
    isLink := fun p => p == "/a",
    readLink := fun _ => "/b" }

/-- Filesystem with the configuration present but the packaged payload
file /data absent, so adding it to the archive fails. -/
def fs3 : FS :=
  { content := fun p => if p == "/d/config.yml" then some "c" else none,
    isLink := fun _ => false,
    readLink := fun _ => "" }

/-- Configuration whose single bundled package owns the absent /data. -/
def cfg3 : PackConfig :=
  { packages :=
      [{ name := "q", packfiles := true, files := [{ path := "/data" }] }],
    otherFiles := [] }

/-- Filesystem where a file already sits at the pack target /t.rpz. -/
def fs5 : FS :=
  { content := fun p => if p == "/t.rpz" then some "old" else none,
    isLink := fun _ => false,
    readLink := fun _ => "" }

/-- Empty configuration. -/
def cfg5 : PackConfig := { packages := [], otherFiles := [] }

/-- Filesystem for a fully successful pack: configuration, trace blob,
the bundled tool and the standalone other file are present, no symlinks. -/
def fsW : FS :=
  { content := fun p =>
      if p == "/d/config.yml" || p == "/d/trace.sqlite3" ||
         p == "/bin/tool" || p == "/etc/other" then some p
      else none,
    isLink := fun _ => false,
    readLink := fun _ => "" }

/-- A package whose packfiles flag is false. -/
def pkgSkip : Package :=
  { name := "skipme", packfiles := false, files := [{ path := "/pkg/skip" }] }

/-- A package whose packfiles flag is true. -/
def pkgTools : Package :=
  { name := "tools", packfiles := true, files := [{ path := "/bin/tool" }] }

/-- Configuration with one skipped package, one bundled package, and one
standalone other file. -/
def cfgW : PackConfig :=
  { packages := [pkgSkip, pkgTools],
    otherFiles := [{ path := "/etc/other" }] }

/-- A run result for a child killed by signal 9, with no normal exit
code. -/
def killedBySig9 : RunResult := { value := none, signal := some 9 }

/-- A run result for a child that exited normally with code 7. -/
def exited7 : RunResult := { value := some 7, signal := none }

/-- Two recorded runs with distinct uid and gid values. -/
def runsW : List Run :=
  [{ workingdir := "/w0", environ := [("A", "1")], uid := 100, gid := 101,
     binary := "/bin/p0", argv := ["p0", "x"] },
   { workingdir := "/w1", environ := [("B", "2")], uid := 200, gid := 201,
     binary := "/bin/p1", argv := ["p1", "y"] }]

/-- C5: for every target path at which a file already exists, pack fails
with ArchiveExistsError and returns the filesystem unchanged; the result
is the same for every configuration and source directory, so nothing is
read from the configuration and nothing is written before the failure. -/
theorem pack_refuses_existing_target (fs : FS) (cfg : PackConfig)
    (target directory : String) (fuel : Nat)
    (h : fs.present target = true) :
    pack fs cfg target directory fuel =
      some (.failure .archiveExists fs) := by
  rw [pack]
  simp [h]

/-- Witness for pack_refuses_existing_target at the fixture with a
pre-existing file at /t.rpz. -/
theorem pack_refuses_existing_target_witness :
    pack fs5 cfg5 "/t.rpz" "/d" 40 = some (.failure .archiveExists fs5) :=
  pack_refuses_existing_target fs5 cfg5 "/t.rpz" "/d" 40 rfl

/-- C9: containerexec_upload and containerexec_download only emit their
log line and return; the world state, of any type, is returned
unchanged. -/
theorem containerexec_upload_download_pure_log {World : Type}
    (state : World) (args : List String) :
    containerexec_upload state args = (state, ["containerexec_upload"]) ∧
    containerexec_download state args = (state, ["containerexec_download"]) :=
  ⟨rfl, rfl⟩

/-- C10: without a cmdline override the invoked argument vector is the
recorded binary followed by the recorded argv minus its first element,
and for a non-empty recorded argv it has the same length (argv 0 is
replaced, not prepended); a supplied override is used verbatim. -/
theorem containerexec_argv_substitution (run : Run) (c : List String)
    (h : run.argv ≠ []) :
    selectArgv none run = run.binary :: run.argv.tail ∧
    (selectArgv none run).length = run.argv.length ∧
    selectArgv (some c) run = c := by
  refine ⟨by simp [selectArgv], ?_, rfl⟩
  simp [selectArgv]
  exact (Nat.succ_pred_eq_of_pos (List.length_pos.mpr h))

/-- Witness for containerexec_argv_substitution at the first fixture
run, whose recorded argv is nonempty. -/
theorem containerexec_argv_substitution_witness :
    selectArgv none (runsW.getD 0 defaultRun) =
      (runsW.getD 0 defaultRun).binary ::
        (runsW.getD 0 defaultRun).argv.tail ∧
    (selectArgv none (runsW.getD 0 defaultRun)).length =
      (runsW.getD 0 defaultRun).argv.length ∧
    selectArgv (some ["/bin/echo", "hi"]) (runsW.getD 0 defaultRun) =
      ["/bin/echo", "hi"] :=
  containerexec_argv_substitution (runsW.getD 0 defaultRun)
    ["/bin/echo", "hi"] (by decide)

/-- C8: the command built for a run embeds exactly the environment
obtained by applying the X11 fix-ups to the recorded mapping first and
the caller-supplied environment options second; it is introduced with
/usr/bin/env -i, so the child inherits nothing from the caller, and the
whole equality holds for every choice of the two collaborator
functions, which pins the application order. -/
theorem containerexec_child_environment {OptT : Type}
    (esc : String → String)
    (x11fix : List (String × String) → List (String × String))
    (fixupEnvironment : List (String × String) → OptT → List (String × String))
    (opts : OptT) (cmdline : Option (List String)) (run : Run) :
    childEnviron x11fix fixupEnvironment opts run =
      fixupEnvironment (x11fix run.environ) opts ∧
    buildRunCmd esc x11fix fixupEnvironment opts cmdline run =
      "/bin/sh -c " ++
        esc ("cd " ++ esc run.workingdir ++ " && " ++ "/usr/bin/env -i " ++
          envAssigns esc (childEnviron x11fix fixupEnvironment opts run) ++
          " " ++ argvString esc (selectArgv cmdline run)) :=
  ⟨rfl, rfl⟩

/-- C3 counterexample: for a child killed by signal 9 (exit value None,
signal 9) containerexec_run does not report 128 + 9 = 137; the
percent-format of the None exit value at default.py line 110 raises an
uncaught TypeError, so the run operation crashes before the return at
line 121 and reports no exit code at all. -/
theorem containerexec_signal_kill_crashes :
    containerexecReport killedBySig9 ≠
      ReportOutcome.returns (some (128 + 9)) ∧
    containerexecReport killedBySig9 = ReportOutcome.typeError := by
  constructor
  · intro h
    simp [containerexecReport, killedBySig9] at h
  · rfl

/-- C3 amended: the run result carries either a normal exit code or a
terminating-signal number, never both. When the child was killed by a
signal the exit value is None, and containerexec_run crashes with an
uncaught TypeError while percent-formatting it at default.py line 110,
reporting no process-level exit code at all (in particular not 128 plus
the signal number); only for a normally exited child does the run
operation return a code, namely the recorded exit value. -/
theorem containerexec_signal_kill_no_report (r q : RunResult)
    (s v : Int)
    (_hsig : r.signal = some s) (hval : r.value = none)
    (hqval : q.value = some v) (hqsig : q.signal = none) :
    containerexecReport r = ReportOutcome.typeError ∧
    containerexecReport q = ReportOutcome.returns (some v) := by
  constructor
  · rw [containerexecReport, hval]
  · rw [containerexecReport, hqval]
    simp [containerexecReturnCode, pyOrOpt, hqsig, hqval]

/-- Witness for containerexec_signal_kill_no_report at the signal-9 and
exit-7 fixtures. -/
theorem containerexec_signal_kill_no_report_witness :
    containerexecReport killedBySig9 = ReportOutcome.typeError ∧
    containerexecReport exited7 = ReportOutcome.returns (some 7) :=
  containerexec_signal_kill_no_report killedBySig9 exited7 9 7
    rfl rfl rfl rfl

/-- Helper: the uid and gid left by the loop over a nonempty selection
are those of the run at the last selected index, for every starting
state. -/
theorem runLoop_foldl_last {OptT : Type} (esc : String → String)
    (x11fix : List (String × String) → List (String × String))
    (fixupEnvironment : List (String × String) → OptT → List (String × String))
    (opts : OptT) (cmdline : Option (List String)) (runs : List Run) :
    ∀ (selected : List Nat) (st : LoopState) (k : Nat),
      selected.getLast? = some k →
      (selected.foldl
          (runLoopStep esc x11fix fixupEnvironment opts cmdline runs)
          st).uid = (runs.getD k defaultRun).uid ∧
      (selected.foldl
          (runLoopStep esc x11fix fixupEnvironment opts cmdline runs)
          st).gid = (runs.getD k defaultRun).gid := by
  intro selected
  induction selected with
  | nil => intro st k h; simp at h
  | cons x tl ih =>
    intro st k h
    cases tl with
    | nil =>
      simp at h
      subst h
      exact ⟨rfl, rfl⟩
    | cons y ys =>
      rw [List.getLast?_cons_cons] at h
      exact ih _ k h

/-- C4: the executor for a combined invocation of several selected runs
is constructed with the uid and gid recorded on the last selected run;
the uid and gid of earlier selected runs do not appear in the result. -/
theorem containerexec_uid_gid_from_last_run {OptT : Type}
    (esc : String → String)
    (x11fix : List (String × String) → List (String × String))
    (fixupEnvironment : List (String × String) → OptT → List (String × String))
    (opts : OptT) (cmdline : Option (List String)) (runs : List Run)
    (selected : List Nat) (k : Nat)
    (_hmulti : 1 < selected.length)
    (hlast : selected.getLast? = some k) :
    containerExecutorOf esc x11fix fixupEnvironment opts cmdline runs
        selected =
      { uid := (runs.getD k defaultRun).uid,
        gid := (runs.getD k defaultRun).gid } := by
  have h := runLoop_foldl_last esc x11fix fixupEnvironment opts cmdline
    runs selected { cmds := [], uid := 0, gid := 0 } k hlast
  rw [containerExecutorOf, runLoop]
  rw [h.1, h.2]

/-- Witness for containerexec_uid_gid_from_last_run: both fixture runs
selected; the executor carries the uid 200 and gid 201 of run 1, not the
uid 100 and gid 101 of run 0. -/
theorem containerexec_uid_gid_from_last_run_witness :
    containerExecutorOf (fun s => s) (fun e => e) (fun e _ => e)
        () none runsW [0, 1] =
      { uid := (runsW.getD 1 defaultRun).uid,
        gid := (runsW.getD 1 defaultRun).gid } :=
  containerexec_uid_gid_from_last_run (fun s => s) (fun e => e)
    (fun e _ => e) () none runsW [0, 1] 1 (by decide) rfl

/-- Helper: on the two-link cycle the symlink-following loop is still
running at every fuel value, from either entry point. -/
theorem cyc_packLinkChain_none :
    ∀ n : Nat, packLinkChain cycFS n "/a" = none ∧
      packLinkChain cycFS n "/b" = none := by
  intro n
  induction n with
  | zero => exact ⟨rfl, rfl⟩
  | succ k ih =>
    obtain ⟨ha, hb⟩ := ih
    constructor
    · show packLinkChain cycFS (k + 1) "/a" = none
      rw [packLinkChain]
      rw [show hop cycFS "/a" = "/b" by decide]
      rw [hb]
      rfl
    · show packLinkChain cycFS (k + 1) "/b" = none
      rw [packLinkChain]
      rw [show hop cycFS "/b" = "/a" by decide]
      rw [ha]
      rfl

/-- C1 counterexample: on the cyclic chain /a to /b to /a, pack is still
running at every fuel value, so the source while-loop of pack.py lines
59-63 never terminates; in particular pack never fails with
ArchiveWriteError on a chain that exceeds any claimed hop bound. -/
theorem pack_cyclic_symlink_diverges : cyclicPackDiverges := by
  intro fuel
  have h := (cyc_packLinkChain_none fuel).1
  have h1 : packFileEntry cycFS fuel { path := "/a" } = none := by
    simp only [packFileEntry]
    rw [h]
    rfl
  have h2 : packSeq (packFileEntry cycFS fuel)
      [({ path := "/a" } : FileEntry)] = none := by
    rw [packSeq, h1]
  have h3 : packPackage cycFS fuel
      { name := "p", packfiles := true, files := [{ path := "/a" }] } =
      none := by
    simp only [packPackage]
    rw [h2]
    simp
  have h4 : packSeq (packPackage cycFS fuel) cycCfg.packages = none := by
    show packSeq (packPackage cycFS fuel)
      [{ name := "p", packfiles := true, files := [{ path := "/a" }] }] =
      none
    rw [packSeq, h3]
  have h5 : packPayload cycFS cycCfg fuel = none := by
    rw [packPayload, h4]
  rw [pack, h5]
  rfl

/-- Helper: on a chain that reaches a non-link target within k hops (all
paths present), the loop terminates within any fuel of at least k and
adds exactly the intermediate targets, with no error. -/
theorem packLinkChain_finite_chain (fs : FS) :
    ∀ (k : Nat) (t : String) (fuel : Nat),
      (∀ s, fs.present s = true) →
      fs.isLink (iterHop fs k t) = false → k ≤ fuel →
      packLinkChain fs fuel t = some (chainTargets fs k t, none) := by
  intro k
  induction k with
  | zero =>
    intro t fuel hall hend hfuel
    rw [iterHop] at hend
    cases fuel with
    | zero => rw [packLinkChain, chainTargets]; simp [hend]
    | succ m => rw [packLinkChain, chainTargets]; simp [hend]
  | succ k ih =>
    intro t fuel hall hend hfuel
    rw [iterHop] at hend
    cases fuel with
    | zero => omega
    | succ m =>
      rw [packLinkChain, chainTargets]
      by_cases hl : fs.isLink t
      · have hih := ih (hop fs t) m hall hend (by omega)
        simp [hl, hall (hop fs t), hih]
      · simp [hl]

/-- C1 amended: pack follows a symbolic-link chain by adding each
intermediate link target as its own payload entry until a non-link
target, but the following is unbounded: there is no maximum hop count,
any finite chain of whatever length is packed without error, and (by
pack_cyclic_symlink_diverges) a cyclic chain makes pack loop forever
instead of failing with ArchiveWriteError. -/
theorem pack_symlink_chain_unbounded (fs : FS) (k fuel : Nat) (t : String)
    (hall : ∀ s, fs.present s = true)
    (hend : fs.isLink (iterHop fs k t) = false)
    (hfuel : k ≤ fuel) :
    packLinkChain fs fuel t = some (chainTargets fs k t, none) ∧
    packFileEntry fs fuel { path := t } =
      some (t :: chainTargets fs k t, none) := by
  have h := packLinkChain_finite_chain fs k t fuel hall hend hfuel
  refine ⟨h, ?_⟩
  simp only [packFileEntry]
  rw [h]
  simp [hall t]

/-- Witness for pack_symlink_chain_unbounded: the single-hop chain from
/a to the regular file /b, at fuel 40. -/
theorem pack_symlink_chain_unbounded_witness :
    packLinkChain fs2 40 "/a" = some (chainTargets fs2 1 "/a", none) ∧
    packFileEntry fs2 40 { path := "/a" } =
      some ("/a" :: chainTargets fs2 1 "/a", none) :=
  pack_symlink_chain_unbounded fs2 1 40 "/a" (fun _ => rfl) (by decide)
    (by decide)

/-- C2 counterexample: pack writes the archive directly at the target
path, so when adding the absent payload file /data fails with
ArchiveWriteError, a file does exist at the target path afterwards,
contradicting the claimed atomicity. -/
theorem pack_incomplete_archive_left_at_target :
    (pack fs3 cfg3 "/t.rpz" "/d" 40).map PackOutcome.errorOf =
      some (some .archiveWrite) ∧
    (pack fs3 cfg3 "/t.rpz" "/d" 40).map
      (fun o => (PackOutcome.finalFS o).present "/t.rpz") = some true := by
  constructor <;> rfl

/-- C2 amended: pack is not atomic; once the initial target and
configuration checks pass it opens the archive at the target path
itself, so every later failure leaves an incomplete file at the target
path; only the initial checks leave prior state untouched. -/
theorem pack_failure_after_open_leaves_target (fs : FS)
    (cfg : PackConfig) (target directory : String) (fuel : Nat)
    (e : PackError)
    (h1 : fs.present target = false)
    (h2 : fs.present (joinPath directory "config.yml") = true)
    (h3 : (pack fs cfg target directory fuel).map PackOutcome.errorOf =
      some (some e)) :
    (pack fs cfg target directory fuel).map
      (fun o => (PackOutcome.finalFS o).present target) = some true := by
  rw [pack] at h3 ⊢
  simp only [h1, h2, Bool.false_eq_true, Bool.true_eq_false, if_false]
    at h3 ⊢
  rcases hp : packPayload fs cfg fuel with _ | ⟨ms, r⟩
  · rw [hp] at h3
    simp at h3
  · rw [hp] at h3
    rcases r with _ | e2
    · simp [PackOutcome.errorOf] at h3
    · simp [PackOutcome.finalFS, FS.present, FS.createFile]

/-- Witness for pack_failure_after_open_leaves_target at the fixture
whose payload file is absent. -/
theorem pack_failure_after_open_leaves_target_witness :
    (pack fs3 cfg3 "/t.rpz" "/d" 40).map
      (fun o => (PackOutcome.finalFS o).present "/t.rpz") = some true :=
  pack_failure_after_open_leaves_target fs3 cfg3 "/t.rpz" "/d" 40
    .archiveWrite rfl rfl rfl

/-- Helper: a successful sequence over the other files contributes
exactly their paths, in configuration order. -/
theorem packSeq_otherFiles_map (fs : FS) :
    ∀ (l : List FileEntry) (ms : List String),
      packSeq (packOtherFile fs) l = some (ms, none) →
      ms = l.map FileEntry.path := by
  intro l
  induction l with
  | nil =>
    intro ms h
    rw [packSeq] at h
    simp at h
    simp [h]
  | cons f tl ih =>
    intro ms h
    rw [packSeq] at h
    by_cases hp : fs.present f.path = true
    · simp only [packOtherFile, hp, if_true] at h
      rcases hrest : packSeq (packOtherFile fs) tl with _ | ⟨rest, r⟩
      · rw [hrest] at h
        simp at h
      · rw [hrest] at h
        rcases r with _ | e
        · simp at h
          rw [← h]
          simp [ih rest hrest]
        · simp at h
    · simp only [packOtherFile, hp, if_false] at h
      simp at h

/-- Helper: a successful pack decomposes into the metadata members
followed by the package payload followed by the other-file payload,
where the other-file part is exactly the configured paths in order. -/
theorem pack_success_split (fs : FS) (cfg : PackConfig)
    (target directory : String) (fuel : Nat) (ms : List String)
    (h : (pack fs cfg target directory fuel).bind PackOutcome.membersOf =
      some ms) :
    ∃ pkgMs othMs,
      packSeq (packPackage fs fuel) cfg.packages = some (pkgMs, none) ∧
      packSeq (packOtherFile fs) cfg.otherFiles = some (othMs, none) ∧
      othMs = cfg.otherFiles.map FileEntry.path ∧
      ms = metadataMembers fs directory ++ (pkgMs ++ othMs) := by
  rw [pack] at h
  by_cases h1 : fs.present target = true
  · simp [h1, PackOutcome.membersOf] at h
  · by_cases h2 : fs.present (joinPath directory "config.yml") = false
    · simp [h1, h2, PackOutcome.membersOf] at h
    · simp only [h1, h2, if_false] at h
      rcases hp : packPayload fs cfg fuel with _ | ⟨msA, r⟩
      · rw [hp] at h
        simp at h
      · rw [hp] at h
        rcases r with _ | e
        · simp [PackOutcome.membersOf] at h
          rw [packPayload] at hp
          rcases hq : packSeq (packPackage fs fuel) cfg.packages
            with _ | ⟨pkgMs, rq⟩
          · rw [hq] at hp
            simp at hp
          · rw [hq] at hp
            rcases rq with _ | e2
            · rcases hr : packSeq (packOtherFile fs) cfg.otherFiles
                with _ | ⟨othMs, rr⟩
              · rw [hr] at hp
                simp at hp
              · rw [hr] at hp
                rcases rr with _ | e3
                · simp at hp
                  exact ⟨pkgMs, othMs, rfl, rfl,
                    packSeq_otherFiles_map fs cfg.otherFiles othMs hr,
                    by rw [← h, hp]⟩
                · simp at hp
            · simp at hp
        · simp [PackOutcome.membersOf] at h

/-- C6: a successful pack writes, in this fixed order, the version
marker, the serialized configuration, the trace blob exactly when one is
present in the source directory, then the package payload in package
and file order, then the standalone other files in configuration order;
pack is a pure function of the filesystem snapshot, so the ordering is
deterministic for a fixed snapshot. -/
theorem pack_member_order (fs : FS) (cfg : PackConfig)
    (target directory : String) (fuel : Nat) (ms : List String)
    (h : (pack fs cfg target directory fuel).bind PackOutcome.membersOf =
      some ms) :
    ∃ pkgMs othMs,
      packSeq (packPackage fs fuel) cfg.packages = some (pkgMs, none) ∧
      packSeq (packOtherFile fs) cfg.otherFiles = some (othMs, none) ∧
      othMs = cfg.otherFiles.map FileEntry.path ∧
      ms = metadataMembers fs directory ++ (pkgMs ++ othMs) :=
  pack_success_split fs cfg target directory fuel ms h

/-- Witness for pack_member_order at the fully successful fixture:
version, configuration, trace, the bundled tool, the other file. -/
theorem pack_member_order_witness :
    ∃ pkgMs othMs,
      packSeq (packPackage fsW 40) cfgW.packages = some (pkgMs, none) ∧
      packSeq (packOtherFile fsW) cfgW.otherFiles = some (othMs, none) ∧
      othMs = cfgW.otherFiles.map FileEntry.path ∧
      ["METADATA/version", "METADATA/config.yml", "METADATA/trace.sqlite3",
        "/bin/tool", "/etc/other"] =
        metadataMembers fsW "/d" ++ (pkgMs ++ othMs) :=
  pack_member_order fsW cfgW "/out.rpz" "/d" 40
    ["METADATA/version", "METADATA/config.yml", "METADATA/trace.sqlite3",
      "/bin/tool", "/etc/other"] rfl

/-- C7: a package whose packfiles flag is false contributes no payload
members at all, while the configuration member is still written to the
archive; every standalone other file has its path in the written
members. -/
theorem pack_packfiles_false_skipped (fs : FS) (cfg : PackConfig)
    (target directory : String) (fuel : Nat) (ms : List String)
    (pkg : Package) (_hmem : pkg ∈ cfg.packages)
    (hflag : pkg.packfiles = false)
    (h : (pack fs cfg target directory fuel).bind PackOutcome.membersOf =
      some ms) :
    packPackage fs fuel pkg = some ([], none) ∧
    configMember ∈ ms ∧
    ∀ f ∈ cfg.otherFiles, f.path ∈ ms := by
  obtain ⟨pkgMs, othMs, _hq, _hr, hoth, hms⟩ :=
    pack_success_split fs cfg target directory fuel ms h
  refine ⟨by simp [packPackage, hflag], ?_, ?_⟩
  · rw [hms]
    simp [metadataMembers]
  · intro f hf
    rw [hms]
    have hin : f.path ∈ othMs := by
      rw [hoth]
      exact List.mem_map_of_mem FileEntry.path hf
    simp only [List.mem_append]
    exact Or.inr (Or.inr hin)

/-- Witness for pack_packfiles_false_skipped: the skipped fixture
package contributes nothing while its files stay in the configuration,
and the other file is in the payload. -/
theorem pack_packfiles_false_skipped_witness :
    packPackage fsW 40 pkgSkip = some ([], none) ∧
    configMember ∈ ["METADATA/version", "METADATA/config.yml",
      "METADATA/trace.sqlite3", "/bin/tool", "/etc/other"] ∧
    ∀ f ∈ cfgW.otherFiles, f.path ∈ ["METADATA/version",
      "METADATA/config.yml", "METADATA/trace.sqlite3", "/bin/tool",
      "/etc/other"] :=
  pack_packfiles_false_skipped fsW cfgW "/out.rpz" "/d" 40
    ["METADATA/version", "METADATA/config.yml", "METADATA/trace.sqlite3",
      "/bin/tool", "/etc/other"] pkgSkip (by decide) rfl rfl

end Reprozip
